import Mathlib

/-!
Shallow embedding of `custom_components/battery_notes/sensor.py` (and the
constants it uses from `const.py`) from the HA-Battery-Notes repository,
together with theorems settling the frozen claims about it.

Python dictionaries of extra state attributes are embedded as association
lists with Python `dict.update` semantics (later update wins on key
collision); Home Assistant entity state values are strings; numeric values
are embedded as rationals.
-/

namespace BatteryNotes

/-! ## Constants from `const.py` -/

def LAST_REPLACED : String := "battery_last_replaced"

def ATTR_BATTERY_QUANTITY : String := "battery_quantity"

def ATTR_BATTERY_TYPE : String := "battery_type"

def ATTR_BATTERY_TYPE_AND_QUANTITY : String := "battery_type_and_quantity"

def ATTR_BATTERY_LAST_REPLACED : String := "battery_last_replaced"

def ATTR_BATTERY_LOW : String := "battery_low"

def ATTR_BATTERY_LOW_THRESHOLD : String := "battery_low_threshold"

def STATE_UNAVAILABLE : String := "unavailable"

def STATE_UNKNOWN : String := "unknown"

/-! ## Dates and timestamps

The store persists `battery_last_replaced` as a day-precision ISO calendar
date; the LastReplacedSensor widens it with `datetime.fromisoformat(str(d) +
"+00:00")`, i.e. a timestamp at midnight with a +00:00 (UTC) offset. -/

structure Date where
  year : Nat
  month : Nat
  day : Nat
deriving DecidableEq, Repr

/-- A parsed `datetime`: calendar date, seconds elapsed since midnight, and
the UTC offset in minutes carried by the `+00:00`-style suffix. -/
structure Timestamp where
  date : Date
  secondsOfDay : Nat
  utcOffsetMinutes : Int
deriving DecidableEq, Repr

/-- `datetime.fromisoformat(str(isoDate) + "+00:00")`: the day-precision date
widened to a timestamp at midnight with a zero UTC offset. -/
def widenUtcMidnight (d : Date) : Timestamp :=
  ⟨d, 0, 0⟩

/-! ## Attribute values and attribute maps (Python dicts) -/

inductive AttrVal where
  | str (s : String)
  | nat (n : Nat)
  | bool (b : Bool)
  | ts (t : Timestamp)
  | null
deriving DecidableEq, Repr

/-- A Python dict of extra state attributes: an association list whose keys
are unique, ordered by insertion. -/
abbrev AttrMap := List (String × AttrVal)

def AttrMap.get? : AttrMap → String → Option AttrVal
  | [], _ => none
  | (a, v) :: rest, k => if a = k then some v else AttrMap.get? rest k

/-- `d[k] = v` on a Python dict: replace in place if the key is present,
append otherwise. -/
def AttrMap.insert : AttrMap → String → AttrVal → AttrMap
  | [], k, v => [(k, v)]
  | (a, w) :: rest, k, v =>
      if a = k then (k, v) :: rest else (a, w) :: AttrMap.insert rest k v

/-- Python `m.update(n)`: each key/value of `n` is inserted into `m`, so on a
key collision the value from `n` wins. -/
def AttrMap.update (m n : AttrMap) : AttrMap :=
  n.foldl (fun acc p => AttrMap.insert acc p.1 p.2) m

def AttrMap.keys (m : AttrMap) : List String :=
  m.map Prod.fst

theorem AttrMap.get?_insert (m : AttrMap) (k : String) (v : AttrVal) (k' : String) :
    (m.insert k v).get? k' = if k = k' then some v else m.get? k' := by
  induction m with
  | nil => simp [AttrMap.insert, AttrMap.get?]
  | cons hd tl ih =>
      obtain ⟨a, w⟩ := hd
      by_cases hak : a = k
      · subst hak
        by_cases hkk : a = k' <;> simp [AttrMap.insert, AttrMap.get?, hkk]
      · by_cases hak' : a = k'
        · subst hak'
          simp [AttrMap.insert, AttrMap.get?, hak, Ne.symm hak]
        · simp [AttrMap.insert, AttrMap.get?, hak, hak', ih]

theorem AttrMap.get?_eq_none_of_not_mem_keys (m : AttrMap) (k : String)
    (h : k ∉ m.keys) : m.get? k = none := by
  induction m with
  | nil => rfl
  | cons hd tl ih =>
      obtain ⟨a, v⟩ := hd
      simp only [AttrMap.keys, List.map_cons, List.mem_cons] at h
      push_neg at h
      simp [AttrMap.get?, Ne.symm h.1, ih (by simpa [AttrMap.keys] using h.2)]

/-- Lookup after a Python `update`: a key found in the argument dict `n`
takes its value from `n`, any other key keeps its value from `m`
(provided `n` has no duplicate keys, as a Python dict cannot). -/
theorem AttrMap.get?_update (m n : AttrMap) (k : String) (hn : n.keys.Nodup) :
    (m.update n).get? k = ((n.get? k).orElse (fun _ => m.get? k)) := by
  induction n generalizing m with
  | nil => simp [AttrMap.update, AttrMap.get?, Option.orElse]
  | cons hd tl ih =>
      obtain ⟨a, v⟩ := hd
      simp only [AttrMap.keys, List.map_cons, List.nodup_cons] at hn
      have hstep : AttrMap.update m ((a, v) :: tl) = AttrMap.update (m.insert a v) tl := by
        simp [AttrMap.update, List.foldl_cons]
      rw [hstep, ih (m.insert a v) hn.2]
      by_cases hak : a = k
      · subst hak
        have htl : AttrMap.get? tl a = none :=
          AttrMap.get?_eq_none_of_not_mem_keys tl a (by simpa [AttrMap.keys] using hn.1)
        simp [AttrMap.get?, htl, AttrMap.get?_insert, Option.orElse]
      · simp [AttrMap.get?, hak, AttrMap.get?_insert]

/-! ## Persisted store and coordinator state

`coordinator.store.async_get_device(device_id)` returns a persisted
per-device record; the sensor platform only inspects its optional
`battery_last_replaced` field (day-precision ISO date). -/

structure StoreDeviceEntry where
  last_replaced : Option Date
deriving DecidableEq, Repr

/-- The persisted metadata store keyed by device id, as seen through
`store.async_get_device`. -/
def Store := String → Option StoreDeviceEntry

/-- `BatteryNotesCoordinator` state as consumed by `sensor.py`: the fields
the sensors read (`device_id`, `battery_quantity`, `battery_type`,
`battery_type_and_quantity`, `battery_low`, `battery_low_threshold`,
`last_replaced`). The coordinator module itself lives outside `sensor.py`;
its fields are treated as inputs here. -/
structure CoordinatorState where
  device_id : Option String
  battery_quantity : Nat
  battery_type : String
  battery_type_and_quantity : String
  battery_low : Bool
  battery_low_threshold : Nat
  last_replaced : Option Timestamp
deriving DecidableEq, Repr

/-! ## Float parsing and rounding -/

def allDigits (l : List Char) : Bool :=
  l.all Char.isDigit

def digitsToNat (l : List Char) : Nat :=
  l.foldl (fun acc c => acc * 10 + (c.toNat - 48)) 0

/-- Modelled from the spec: `isfloat` is imported from the repository's
`common` module, which is not part of the examined sources; per the spec a
value is usable only when it parses as a floating value. Embedded as a
decimal parser: optional sign, then digits with an optional single decimal
point, at least one digit overall; anything else fails to parse. -/
def parseFloat? (s : String) : Option ℚ :=
  let signBody : ℚ × List Char :=
    match s.data with
    | '-' :: rest => (-1, rest)
    | '+' :: rest => (1, rest)
    | cs => (1, cs)
  let sign := signBody.1
  let body := signBody.2
  let intPart := body.takeWhile (fun c => c ≠ '.')
  match body.dropWhile (fun c => c ≠ '.') with
  | [] =>
      if intPart.isEmpty then none
      else if allDigits intPart then some (sign * (digitsToNat intPart : ℚ)) else none
  | _ :: frac =>
      if intPart.isEmpty && frac.isEmpty then none
      else if allDigits intPart && allDigits frac then
        some (sign * ((digitsToNat intPart : ℚ)
          + (digitsToNat frac : ℚ) / (10 : ℚ) ^ frac.length))
      else none

/-- `isfloat` from `common.py` (not under the examined sources): whether the
state string parses as a float. -/
def isfloat (s : String) : Bool :=
  (parseFloat? s).isSome

/-- Python `float(s)` on a string for which `isfloat` holds. -/
def parseFloat (s : String) : ℚ :=
  (parseFloat? s).getD 0

/-- Round to the nearest integer, ties to even (Python `round` semantics). -/
def roundHalfEven (q : ℚ) : ℤ :=
  let f := ⌊q⌋
  let r := q - (f : ℚ)
  if r < 1 / 2 then f
  else if 1 / 2 < r then f + 1
  else if Even f then f else f + 1

/-- Python `round(x, ndigits)` on a decimal value. -/
def pyRound (q : ℚ) (ndigits : Nat) : ℚ :=
  (roundHalfEven (q * (10 : ℚ) ^ ndigits) : ℚ) / (10 : ℚ) ^ ndigits

/-! ## Home Assistant states -/

/-- The result of `hass.states.get(entity_id)` when an entity exists: its
state string and its attribute dict. -/
structure HAState where
  state : String
  attributes : AttrMap
deriving DecidableEq, Repr

/-- The map of live entity states, `hass.states`. -/
def States := String → Option HAState

/-! ## Entity registry -/

/-- `RegistryEntryHider`: who hid an entity registry entry. -/
inductive Hider where
  | integration
  | user
deriving DecidableEq, Repr

/-- An entity registry entry, restricted to the fields `sensor.py` reads. -/
structure RegistryEntry where
  entity_id : String
  device_id : Option String
  hidden_by : Option Hider
  name : Option String
deriving DecidableEq, Repr

/-- `RegistryEntry.hidden`: an entry is hidden iff `hidden_by` is set. -/
def RegistryEntry.hidden (e : RegistryEntry) : Bool :=
  e.hidden_by.isSome

/-- The entity registry, `er.async_get(hass)`, as a lookup by entity id. -/
def EntityRegistry := String → Option RegistryEntry

/-- The device registry, `dr.async_get(hass)`, as a lookup by device id;
the sensor platform only tests existence of a device entry. -/
def DeviceRegistry := String → Option Unit

/-- The integration-wide options read from `hass.data[DOMAIN][DOMAIN_CONFIG]`
(each read with `dict.get` and a default, so embedded as plain fields). -/
structure DomainConfig where
  hide_battery : Bool
deriving DecidableEq, Repr

/-! ## BatteryNotesBatteryPlusSensor -/

/-- The mutable state of a `BatteryNotesBatteryPlusSensor` relevant to its
renders: its coordinator, the options captured at construction, the wrapped
battery's entity id, its own entity id, and the `_attr_*` fields the state
listener writes (`_attr_available` defaults to true, `_attr_native_value`
and `_wrapped_attributes` to none). -/
structure BatteryPlusSensor where
  coordinator : CoordinatorState
  enable_replaced : Bool
  round_battery : Bool
  battery_entity_id : Option String
  entity_id : String
  available : Bool
  native_value : Option ℚ
  wrapped_attributes : Option AttrMap
deriving DecidableEq, Repr

/-- `BatteryNotesBatteryPlusSensor.async_state_changed_listener`: reads the
wrapped battery's state; a missing state, an `unavailable`/`unknown`
sentinel, or a non-float state makes the sensor unavailable with no native
value; otherwise the sensor becomes available with the parsed value rounded
to 0 decimals when `round_battery` is set, else 1 decimal, and the upstream
attributes are copied into `_wrapped_attributes`. -/
def async_state_changed_listener (states : States) (s : BatteryPlusSensor) :
    BatteryPlusSensor :=
  match s.battery_entity_id with
  | none => s
  | some eid =>
      match states eid with
      | none => { s with native_value := none, available := false }
      | some st =>
          if st.state = STATE_UNAVAILABLE ∨ st.state = STATE_UNKNOWN ∨ ¬ isfloat st.state then
            { s with native_value := none, available := false }
          else
            { s with
                available := true
                native_value :=
                  some (pyRound (parseFloat st.state) (if s.round_battery then 0 else 1))
                wrapped_attributes := some st.attributes }

/-- The dict literal built first in
`BatteryNotesBatteryPlusSensor.extra_state_attributes`, plus the
conditional `battery_last_replaced` entry appended when `enable_replaced`
is set. -/
def coordAttrs (c : CoordinatorState) (enable_replaced : Bool) : AttrMap :=
  [(ATTR_BATTERY_QUANTITY, AttrVal.nat c.battery_quantity),
   (ATTR_BATTERY_TYPE, AttrVal.str c.battery_type),
   (ATTR_BATTERY_TYPE_AND_QUANTITY, AttrVal.str c.battery_type_and_quantity),
   (ATTR_BATTERY_LOW, AttrVal.bool c.battery_low),
   (ATTR_BATTERY_LOW_THRESHOLD, AttrVal.nat c.battery_low_threshold)]
  ++ (if enable_replaced then
        [(ATTR_BATTERY_LAST_REPLACED,
          match c.last_replaced with
          | some t => AttrVal.ts t
          | none => AttrVal.null)]
      else [])

/-- `BatteryNotesBatteryPlusSensor.extra_state_attributes`: the coordinator
dict, then `attrs.update(super_attrs)` when the base class supplies
attributes, then `attrs.update(self._wrapped_attributes)` when the wrapped
attributes have been captured. -/
def extra_state_attributes (s : BatteryPlusSensor) (super_attrs : Option AttrMap) :
    AttrMap :=
  let attrs := coordAttrs s.coordinator s.enable_replaced
  let attrs :=
    match super_attrs with
    | some m => attrs.update m
    | none => attrs
  match s.wrapped_attributes with
  | some m => attrs.update m
  | none => attrs

/-! ## Entity descriptions and unique ids (`async_setup_entry`) -/

/-- The fields of `BatteryNotesSensorEntityDescription` that determine entity
identity. -/
structure SensorDescription where
  key : String
  unique_id_suffix : String
deriving DecidableEq, Repr

def battery_plus_sensor_entity_description : SensorDescription :=
  ⟨"battery_plus", "_battery_plus"⟩

/-- `battery_type` has its unique id set to the entity id in V1, so its
suffix is the empty string. -/
def type_sensor_entity_description : SensorDescription :=
  ⟨"battery_type", ""⟩

def last_replaced_sensor_entity_description : SensorDescription :=
  ⟨"battery_last_replaced", "_battery_last_replaced"⟩

/-- The unique id handed to each sensor in `async_setup_entry`:
`f"{config_entry.entry_id}{description.unique_id_suffix}"`. -/
def uniqueId (entry_id : String) (d : SensorDescription) : String :=
  entry_id ++ d.unique_id_suffix

/-! ## `async_registry_updated` (entity-registry lifecycle handler) -/

inductive RegistryAction where
  | add
  | remove
  | update
deriving DecidableEq, Repr

/-- An entity-registry lifecycle event as delivered to
`async_registry_updated`: `event.data` carries the action, the set of
changed fields, and the entity id. -/
structure RegistryEvent where
  action : RegistryAction
  changes : List String
  entity_id : String
deriving DecidableEq, Repr

/-- The externally visible operations `async_registry_updated` can issue. -/
inductive Effect where
  | removeEntry (entry_id : String)
  | reloadEntry (entry_id : String)
  | removeConfigEntryFromDevice (device_id : String) (entry_id : String)
deriving DecidableEq, Repr

/-- The environment captured by the `async_registry_updated` closure: the
registries, the config entry id, and the `device_id` the entry was added
to. -/
structure HandlerEnv where
  entity_registry : EntityRegistry
  device_registry : DeviceRegistry
  entry_id : String
  device_id : Option String

/-- `async_registry_updated` from `async_setup_entry`, as the list of
operations it issues for one event: `remove` removes the config entry (and
returns, since `remove ≠ update`); an `update` with an `entity_id` change
reloads the entry; an `update` with a `device_id` change, when a device id
is bound, detaches the config entry from the device unless the tracked
entity is gone from the registry, the device is gone, or the entity still
belongs to the device. -/
def async_registry_updated (env : HandlerEnv) (ev : RegistryEvent) : List Effect :=
  let removeEffects :=
    if ev.action = RegistryAction.remove then [Effect.removeEntry env.entry_id] else []
  if ev.action ≠ RegistryAction.update then removeEffects
  else
    let reloadEffects :=
      if "entity_id" ∈ ev.changes then [Effect.reloadEntry env.entry_id] else []
    let detachEffects :=
      match env.device_id with
      | none => []
      | some did =>
          if "device_id" ∈ ev.changes then
            match env.entity_registry ev.entity_id with
            | none => []
            | some entity_entry =>
                match env.device_registry did with
                | none => []
                | some _ =>
                    if entity_entry.device_id = some did then []
                    else [Effect.removeConfigEntryFromDevice did env.entry_id]
          else []
    removeEffects ++ reloadEffects ++ detachEffects

/-- Whether an effect touches the device registry (the only registry change
the handler can issue on the `update` path). -/
def Effect.isRegistryChange : Effect → Bool
  | Effect.removeConfigEntryFromDevice _ _ => true
  | _ => false

/-- Modelled from the spec: removing a configuration entry is handled by the
host's config-entry lifecycle (out of scope of the sources); per the spec it
tears down every derived sensor of the entry and releases each subscription
registered through the entity lifecycle, so no callback is deliverable to
the entry's sensors afterwards. -/
structure EntrySystem where
  entryActive : Bool
  sensorCallbacks : List String
deriving DecidableEq, Repr

def applyEffect (sys : EntrySystem) (eff : Effect) : EntrySystem :=
  match eff with
  | Effect.removeEntry _ => ⟨false, []⟩
  | _ => sys

def applyEffects (sys : EntrySystem) (effs : List Effect) : EntrySystem :=
  effs.foldl applyEffect sys

/-- The callbacks the host can still deliver to the entry's sensors. -/
def deliverable (sys : EntrySystem) : List String :=
  if sys.entryActive then sys.sensorCallbacks else []

/-! ## `BatteryNotesBatteryPlusSensor.async_added_to_hass` -/

/-- The externally visible operations `async_added_to_hass` can issue, in
program order: subscribing to the wrapped battery's state changes,
updating this entity's options, changing an entity's `hidden_by`
visibility, renaming this entity, and registering the coordinator
listener. -/
inductive AddEffect where
  | subscribeStateChange (entity_id : String)
  | updateEntityOptions (entity_id : String) (battery_entity_id : String)
  | updateHiddenBy (entity_id : String) (hidden_by : Option Hider)
  | updateName (entity_id : String) (name : String)
  | registerCoordinatorListener
deriving DecidableEq, Repr

/-- `BatteryNotesBatteryPlusSensor.async_added_to_hass`: subscribes to the
wrapped battery when one is set, runs the state listener once, updates the
entity options when this entity is registered, then — only when the wrapped
battery has a registry entry — applies the `hide_battery` visibility
policy, copies a user-set name with a `+` suffix, and registers the
coordinator listener. When the wrapped battery has no registry entry the
method returns early after the options update. The overridden
`CoordinatorEntity.async_added_to_hass` is never called, so no other
coordinator listener registration happens. Returns the issued effects in
order together with the sensor state after the initial listener call. -/
def async_added_to_hass (registry : EntityRegistry) (domain_config : Option DomainConfig)
    (states : States) (s : BatteryPlusSensor) : List AddEffect × BatteryPlusSensor :=
  let subEffects :=
    match s.battery_entity_id with
    | some eid => [AddEffect.subscribeStateChange eid]
    | none => []
  let s1 := async_state_changed_listener states s
  let optEffects :=
    match s.battery_entity_id with
    | some beid =>
        if (registry s.entity_id).isSome then
          [AddEffect.updateEntityOptions s.entity_id beid]
        else []
    | none => []
  match s.battery_entity_id >>= registry with
  | none => (subEffects ++ optEffects, s1)
  | some wrapped_battery =>
      let hideEffects :=
        match domain_config with
        | none => []
        | some cfg =>
            if cfg.hide_battery then
              if ¬ wrapped_battery.hidden then
                [AddEffect.updateHiddenBy wrapped_battery.entity_id (some Hider.integration)]
              else []
            else
              if wrapped_battery.hidden_by = some Hider.integration then
                [AddEffect.updateHiddenBy wrapped_battery.entity_id none]
              else []
      let nameEffects :=
        match wrapped_battery.name with
        | some n => [AddEffect.updateName s.entity_id (n ++ "+")]
        | none => []
      (subEffects ++ optEffects ++ hideEffects ++ nameEffects
        ++ [AddEffect.registerCoordinatorListener], s1)

/-- Whether an add-time effect changes some registry entry's visibility. -/
def AddEffect.isVisibilityChange : AddEffect → Bool
  | AddEffect.updateHiddenBy _ _ => true
  | _ => false

/-! ## BatteryNotesTypeSensor -/

/-- The state of a `BatteryNotesTypeSensor`: its coordinator and the
`_attr_native_value` field that restore-on-restart writes. -/
structure TypeSensor where
  coordinator : CoordinatorState
  attr_native_value : Option String
deriving DecidableEq, Repr

/-- `BatteryNotesTypeSensor.native_value`: always the coordinator's
`battery_type_and_quantity`. -/
def TypeSensor.native_value (s : TypeSensor) : String :=
  s.coordinator.battery_type_and_quantity

/-- `BatteryNotesTypeSensor.async_added_to_hass`: when
`async_get_last_sensor_data` yields a persisted value from before the
restart, it is written into `_attr_native_value`. -/
def TypeSensor.added_to_hass (restored : Option String) (s : TypeSensor) : TypeSensor :=
  match restored with
  | some v => { s with attr_native_value := some v }
  | none => s

/-- `BatteryNotesTypeSensor.extra_state_attributes`. -/
def TypeSensor.extra_attributes (s : TypeSensor) : AttrMap :=
  [(ATTR_BATTERY_QUANTITY, AttrVal.nat s.coordinator.battery_quantity),
   (ATTR_BATTERY_TYPE, AttrVal.str s.coordinator.battery_type)]

/-! ## BatteryNotesLastReplacedSensor -/

/-- The state of a `BatteryNotesLastReplacedSensor`: the device id captured
from the coordinator and the `_native_value` field. -/
structure LastReplacedSensor where
  device_id : Option String
  native_value : Option Timestamp
deriving DecidableEq, Repr

/-- `store.async_get_device(self._device_id)` followed by the
`LAST_REPLACED in device_entry` check: the stored day-precision date when
the device record exists and carries the field. -/
def lookupLastReplaced (store : Store) (device_id : Option String) : Option Date :=
  match device_id with
  | none => none
  | some did =>
      match store did with
      | none => none
      | some entry => entry.last_replaced

/-- `BatteryNotesLastReplacedSensor._set_native_value`: writes the stored
date, widened by `datetime.fromisoformat(str(date) + "+00:00")`, only when
the device record exists and carries `battery_last_replaced`; otherwise
leaves `_native_value` untouched. -/
def LastReplacedSensor.set_native_value (store : Store) (s : LastReplacedSensor) :
    LastReplacedSensor :=
  match lookupLastReplaced store s.device_id with
  | some d => { s with native_value := some (widenUtcMidnight d) }
  | none => s

/-- The `BatteryNotesLastReplacedSensor` constructor: `_native_value` starts
as `None`, then `_set_native_value` runs once against the store. -/
def mkLastReplacedSensor (store : Store) (device_id : Option String) :
    LastReplacedSensor :=
  LastReplacedSensor.set_native_value store ⟨device_id, none⟩

/-- `BatteryNotesLastReplacedSensor._handle_coordinator_update`: same guard
and assignment as `_set_native_value` (plus a state write). -/
def LastReplacedSensor.handle_coordinator_update (store : Store)
    (s : LastReplacedSensor) : LastReplacedSensor :=
  match lookupLastReplaced store s.device_id with
  | some d => { s with native_value := some (widenUtcMidnight d) }
  | none => s

/-! ## Theorems -/

/-- Claim C4: every configuration entry's three derived sensors get unique
ids `entry_id ++ suffix`, with the empty suffix for the type sensor and the
fixed literals `"_battery_plus"` and `"_battery_last_replaced"` for the
other two, and the three ids are pairwise distinct. -/
theorem c4_unique_ids (entry_id : String) :
    uniqueId entry_id type_sensor_entity_description = entry_id ∧
      uniqueId entry_id battery_plus_sensor_entity_description
        = entry_id ++ "_battery_plus" ∧
      uniqueId entry_id last_replaced_sensor_entity_description
        = entry_id ++ "_battery_last_replaced" ∧
      uniqueId entry_id type_sensor_entity_description
        ≠ uniqueId entry_id battery_plus_sensor_entity_description ∧
      uniqueId entry_id type_sensor_entity_description
        ≠ uniqueId entry_id last_replaced_sensor_entity_description ∧
      uniqueId entry_id battery_plus_sensor_entity_description
        ≠ uniqueId entry_id last_replaced_sensor_entity_description := by
  have hplus : ("_battery_plus" : String).length = 13 := rfl
  have hlast : ("_battery_last_replaced" : String).length = 22 := rfl
  refine ⟨String.append_empty entry_id, rfl, rfl, ?_, ?_, ?_⟩
  · intro h
    have h2 := congrArg String.length h
    simp only [uniqueId, type_sensor_entity_description,
      battery_plus_sensor_entity_description,
      last_replaced_sensor_entity_description] at h2
    rw [String.length_append, String.length_append] at h2
    have hemp : ("" : String).length = 0 := rfl
    omega
  · intro h
    have h2 := congrArg String.length h
    simp only [uniqueId, type_sensor_entity_description,
      battery_plus_sensor_entity_description,
      last_replaced_sensor_entity_description] at h2
    rw [String.length_append, String.length_append] at h2
    have hemp : ("" : String).length = 0 := rfl
    omega
  · intro h
    have h2 := congrArg String.length h
    simp only [uniqueId, type_sensor_entity_description,
      battery_plus_sensor_entity_description,
      last_replaced_sensor_entity_description] at h2
    rw [String.length_append, String.length_append] at h2
    omega

/-- Claim C4 witness: the three unique ids of the entry `"abc123"`. -/
theorem c4_unique_ids_witness :
    uniqueId "abc123" type_sensor_entity_description = "abc123" ∧
      uniqueId "abc123" battery_plus_sensor_entity_description
        ≠ uniqueId "abc123" last_replaced_sensor_entity_description :=
  ⟨(c4_unique_ids "abc123").1, (c4_unique_ids "abc123").2.2.2.2.2⟩

/-- Claim C5: an entity-registry `remove` event received while the entry is
bound to an upstream entity removes the whole configuration entry, after
which no callback is deliverable to any of the entry's sensors. -/
theorem c5_remove_tears_down_entry (env : HandlerEnv) (ev : RegistryEvent)
    (sys : EntrySystem) (did : String)
    (_hbound : env.device_id = some did)
    (hact : ev.action = RegistryAction.remove) :
    Effect.removeEntry env.entry_id ∈ async_registry_updated env ev ∧
      deliverable (applyEffects sys (async_registry_updated env ev)) = [] := by
  have heff : async_registry_updated env ev = [Effect.removeEntry env.entry_id] := by
    simp [async_registry_updated, hact]
  rw [heff]
  exact ⟨List.mem_singleton.mpr rfl, by simp [applyEffects, applyEffect, deliverable]⟩

/-- Claim C5 witness: a concrete `remove` event on a bound entry. -/
theorem c5_remove_tears_down_entry_witness :
    Effect.removeEntry "entry1"
        ∈ async_registry_updated ⟨fun _ => none, fun _ => none, "entry1", some "dev1"⟩
            ⟨RegistryAction.remove, [], "sensor.b"⟩ ∧
      deliverable (applyEffects ⟨true, ["cb1", "cb2", "cb3"]⟩
        (async_registry_updated ⟨fun _ => none, fun _ => none, "entry1", some "dev1"⟩
          ⟨RegistryAction.remove, [], "sensor.b"⟩)) = [] :=
  c5_remove_tears_down_entry ⟨fun _ => none, fun _ => none, "entry1", some "dev1"⟩
    ⟨RegistryAction.remove, [], "sensor.b"⟩ ⟨true, ["cb1", "cb2", "cb3"]⟩ "dev1" rfl rfl

/-- Claim C6: an `update` event whose changes include `device_id`, received
while bound and while both the tracked entity and the bound device are
registered, removes the configuration entry's association from the device
exactly when the tracked entity no longer belongs to the device, and issues
no registry change otherwise. -/
theorem c6_device_id_change (env : HandlerEnv) (ev : RegistryEvent) (did : String)
    (e : RegistryEntry)
    (hact : ev.action = RegistryAction.update)
    (hch : "device_id" ∈ ev.changes)
    (hbound : env.device_id = some did)
    (hent : env.entity_registry ev.entity_id = some e)
    (hdev : (env.device_registry did).isSome) :
    (e.device_id ≠ some did →
        (async_registry_updated env ev).filter Effect.isRegistryChange
          = [Effect.removeConfigEntryFromDevice did env.entry_id]) ∧
      (e.device_id = some did →
        (async_registry_updated env ev).filter Effect.isRegistryChange = []) := by
  obtain ⟨u, hu⟩ := Option.isSome_iff_exists.mp hdev
  constructor <;> intro hc <;>
    by_cases hre : "entity_id" ∈ ev.changes <;>
      simp [async_registry_updated, hact, hch, hbound, hent, hu, hre, hc,
        Effect.isRegistryChange]

/-- Claim C6 witness: a concrete `device_id` change where the tracked entity
has moved to another device, and one where it has not. -/
theorem c6_device_id_change_witness :
    (async_registry_updated
        ⟨fun eid => if eid = "sensor.b" then
            some ⟨"sensor.b", some "other_device", none, none⟩ else none,
          fun d => if d = "dev1" then some () else none, "entry1", some "dev1"⟩
        ⟨RegistryAction.update, ["device_id"], "sensor.b"⟩).filter Effect.isRegistryChange
      = [Effect.removeConfigEntryFromDevice "dev1" "entry1"] := by
  have h := c6_device_id_change
    ⟨fun eid => if eid = "sensor.b" then
        some ⟨"sensor.b", some "other_device", none, none⟩ else none,
      fun d => if d = "dev1" then some () else none, "entry1", some "dev1"⟩
    ⟨RegistryAction.update, ["device_id"], "sensor.b"⟩ "dev1"
    ⟨"sensor.b", some "other_device", none, none⟩
    rfl (by simp) rfl (by simp) (by simp)
  exact h.1 (by simp)

/-- Claim C7: a LastReplacedSensor renders no value when the device's store
record is missing or lacks `battery_last_replaced`, and otherwise renders
the stored day-precision date widened to a timestamp at midnight with a
zero UTC offset; a coordinator update against the same store leaves the
render unchanged. -/
theorem c7_last_replaced_render (store : Store) (did : Option String) :
    (lookupLastReplaced store did = none →
        (mkLastReplacedSensor store did).native_value = none) ∧
      (∀ d, lookupLastReplaced store did = some d →
        ∃ t, (mkLastReplacedSensor store did).native_value = some t ∧
          t.date = d ∧ t.secondsOfDay = 0 ∧ t.utcOffsetMinutes = 0) ∧
      LastReplacedSensor.handle_coordinator_update store (mkLastReplacedSensor store did)
        = mkLastReplacedSensor store did := by
  refine ⟨?_, ?_, ?_⟩
  · intro h
    simp [mkLastReplacedSensor, LastReplacedSensor.set_native_value, h]
  · intro d h
    refine ⟨widenUtcMidnight d, ?_, rfl, rfl, rfl⟩
    simp [mkLastReplacedSensor, LastReplacedSensor.set_native_value, h]
  · cases h : lookupLastReplaced store did <;>
      simp [mkLastReplacedSensor, LastReplacedSensor.set_native_value,
        LastReplacedSensor.handle_coordinator_update, h]

/-- Claim C7 witness: a store holding `2023-05-01` for `dev1` renders as the
timestamp `2023-05-01T00:00:00+00:00`, and a device with no record renders
nothing. -/
theorem c7_last_replaced_render_witness :
    (mkLastReplacedSensor
        (fun d => if d = "dev1" then some ⟨some ⟨2023, 5, 1⟩⟩ else none)
        (some "dev1")).native_value = some ⟨⟨2023, 5, 1⟩, 0, 0⟩ ∧
      (mkLastReplacedSensor
        (fun d => if d = "dev1" then some ⟨some ⟨2023, 5, 1⟩⟩ else none)
        (some "dev2")).native_value = none := by
  constructor
  · obtain ⟨t, ht, hd, hs, ho⟩ :=
      ((c7_last_replaced_render
        (fun d => if d = "dev1" then some ⟨some ⟨2023, 5, 1⟩⟩ else none)
        (some "dev1")).2.1) ⟨2023, 5, 1⟩ (by simp [lookupLastReplaced])
    rw [ht]
    cases t
    simp_all
  · exact (c7_last_replaced_render
      (fun d => if d = "dev1" then some ⟨some ⟨2023, 5, 1⟩⟩ else none)
      (some "dev2")).1 (by simp [lookupLastReplaced])

/-- A coordinator update never clears a LastReplacedSensor's non-absent
native value. -/
theorem handle_update_keeps_nonabsent (store : Store) (s : LastReplacedSensor)
    (h : s.native_value ≠ none) :
    (LastReplacedSensor.handle_coordinator_update store s).native_value ≠ none := by
  unfold LastReplacedSensor.handle_coordinator_update
  cases hl : lookupLastReplaced store s.device_id <;> simp [hl, h]

/-- Claim C10: a LastReplacedSensor's render is unchanged by a coordinator
update for which the device's store record is missing or lacks
`battery_last_replaced`, and once non-absent it stays non-absent under any
sequence of coordinator updates. -/
theorem c10_last_replaced_monotone (store : Store) (s : LastReplacedSensor)
    (stores : List Store) :
    (lookupLastReplaced store s.device_id = none →
        (LastReplacedSensor.handle_coordinator_update store s).native_value
          = s.native_value) ∧
      (s.native_value ≠ none →
        (stores.foldl (fun acc st => LastReplacedSensor.handle_coordinator_update st acc)
          s).native_value ≠ none) := by
  constructor
  · intro h
    simp [LastReplacedSensor.handle_coordinator_update, h]
  · intro h
    induction stores generalizing s with
    | nil => exact h
    | cons st rest ih =>
        exact ih (LastReplacedSensor.handle_coordinator_update st s)
          (handle_update_keeps_nonabsent st s h)

/-- Claim C10 witness: a sensor holding a value keeps a value across updates
against an empty store and a store lacking the field. -/
theorem c10_last_replaced_monotone_witness :
    (LastReplacedSensor.handle_coordinator_update (fun _ => none)
        ⟨some "dev1", some ⟨⟨2023, 5, 1⟩, 0, 0⟩⟩).native_value
      = some ⟨⟨2023, 5, 1⟩, 0, 0⟩ ∧
      (([fun _ => none, fun _ => some ⟨none⟩] : List Store).foldl
        (fun acc st => LastReplacedSensor.handle_coordinator_update st acc)
        ⟨some "dev1", some ⟨⟨2023, 5, 1⟩, 0, 0⟩⟩).native_value ≠ none := by
  have h := c10_last_replaced_monotone (fun _ => none)
    ⟨some "dev1", some ⟨⟨2023, 5, 1⟩, 0, 0⟩⟩ [fun _ => none, fun _ => some ⟨none⟩]
  exact ⟨h.1 rfl, h.2 (by simp)⟩

/-- Claim C2: on an upstream state-change notification of a tracked wrapped
battery, a missing state, an `unavailable`/`unknown` sentinel, or a
non-float state makes the sensor unavailable with no native value,
independent of prior state; any other state makes it available with the
parsed value rounded to 0 decimals when `round_battery` is set, else 1
decimal. -/
theorem c2_state_listener (states : States) (s : BatteryPlusSensor) (eid : String)
    (h : s.battery_entity_id = some eid) :
    (states eid = none →
        (async_state_changed_listener states s).available = false ∧
          (async_state_changed_listener states s).native_value = none) ∧
      (∀ st, states eid = some st →
        (st.state = STATE_UNAVAILABLE ∨ st.state = STATE_UNKNOWN ∨
          isfloat st.state = false) →
        (async_state_changed_listener states s).available = false ∧
          (async_state_changed_listener states s).native_value = none) ∧
      (∀ st q, states eid = some st →
        st.state ≠ STATE_UNAVAILABLE → st.state ≠ STATE_UNKNOWN →
        parseFloat? st.state = some q →
        (async_state_changed_listener states s).available = true ∧
          (async_state_changed_listener states s).native_value
            = some (pyRound q (if s.round_battery then 0 else 1))) := by
  refine ⟨?_, ?_, ?_⟩
  · intro hs
    simp [async_state_changed_listener, h, hs]
  · intro st hs hbad
    simp only [async_state_changed_listener, h, hs]
    split
    · exact ⟨rfl, rfl⟩
    · rename_i hcond
      exfalso
      apply hcond
      rcases hbad with h1 | h1 | h1
      · exact Or.inl h1
      · exact Or.inr (Or.inl h1)
      · exact Or.inr (Or.inr (by simp [h1]))
  · intro st q hs h1 h2 hp
    have hf : isfloat st.state = true := by simp [isfloat, hp]
    have hpv : parseFloat st.state = q := by simp [parseFloat, hp]
    simp only [async_state_changed_listener, h, hs]
    split
    · rename_i hcond
      exfalso
      rcases hcond with hc | hc | hc
      · exact h1 hc
      · exact h2 hc
      · exact hc (by simp [hf])
    · exact ⟨rfl, by simp [hpv]⟩

/-- Claim C2 witness: an upstream state `"85.5"` renders as `85.5` (one
decimal, `round_battery` unset) on a concrete sensor. -/
theorem c2_state_listener_witness :
    (async_state_changed_listener
        (fun e => if e = "sensor.b" then some ⟨"85.5", []⟩ else none)
        ⟨⟨some "dev1", 2, "AA", "AA x2", false, 10, none⟩, true, false,
          some "sensor.b", "sensor.x", true, none, none⟩).available = true ∧
      ((async_state_changed_listener
        (fun e => if e = "sensor.b" then some ⟨"85.5", []⟩ else none)
        ⟨⟨some "dev1", 2, "AA", "AA x2", false, 10, none⟩, true, false,
          some "sensor.b", "sensor.x", true, none, none⟩).native_value).isSome
        = true := by
  have hiso : (parseFloat? "85.5").isSome = true := by decide
  obtain ⟨q, hq⟩ := Option.isSome_iff_exists.mp hiso
  have h := (c2_state_listener
    (fun e => if e = "sensor.b" then some ⟨"85.5", []⟩ else none)
    ⟨⟨some "dev1", 2, "AA", "AA x2", false, 10, none⟩, true, false,
      some "sensor.b", "sensor.x", true, none, none⟩ "sensor.b" rfl).2.2
    ⟨"85.5", []⟩ q (by simp) (by decide) (by decide) hq
  exact ⟨h.1, by rw [h.2]; rfl⟩

/-- Claim C3 counterexample: a TypeSensor that restored the persisted value
`"AA x2"` from before a restart stores it but renders the coordinator's
composite string instead, even before any refresh. -/
theorem c3_counterexample :
    (TypeSensor.added_to_hass (some "AA x2")
        ⟨⟨some "dev1", 1, "CR2032", "CR2032 x1", false, 10, none⟩, none⟩).attr_native_value
      = some "AA x2" ∧
      (TypeSensor.added_to_hass (some "AA x2")
        ⟨⟨some "dev1", 1, "CR2032", "CR2032 x1", false, 10, none⟩, none⟩).native_value
      ≠ "AA x2" := by
  decide

/-- Claim C3 (amended): a TypeSensor always renders the coordinator's
`battery_type_and_quantity`, also before the first refresh after a restart;
a value restored from before the restart is written to the internal
`_attr_native_value` field but is never rendered, since `native_value` is
overridden. -/
theorem c3_type_sensor_value (s : TypeSensor) (restored : Option String) :
    (TypeSensor.added_to_hass restored s).native_value
        = s.coordinator.battery_type_and_quantity ∧
      (∀ v, restored = some v →
        (TypeSensor.added_to_hass restored s).attr_native_value = some v) := by
  constructor
  · cases restored <;> rfl
  · intro v hv
    subst hv
    rfl

/-- Claim C3 witness: the amended statement at a concrete sensor. -/
theorem c3_type_sensor_value_witness :
    (TypeSensor.added_to_hass (some "AA x2")
        ⟨⟨some "dev1", 1, "CR2032", "CR2032 x1", false, 10, none⟩, none⟩).native_value
      = "CR2032 x1" ∧
      (TypeSensor.added_to_hass (some "AA x2")
        ⟨⟨some "dev1", 1, "CR2032", "CR2032 x1", false, 10, none⟩, none⟩).attr_native_value
      = some "AA x2" := by
  have h := c3_type_sensor_value
    ⟨⟨some "dev1", 1, "CR2032", "CR2032 x1", false, 10, none⟩, none⟩ (some "AA x2")
  exact ⟨h.1, h.2 "AA x2" rfl⟩

/-- The attribute dict held by an optional field: the dict itself when set,
the empty dict otherwise. -/
def optAttrs : Option AttrMap → AttrMap
  | some m => m
  | none => []

/-- Claim C1 counterexample: on the key `battery_quantity`, present both in
the coordinator-derived dict and in the mirrored upstream passthrough
attributes, the rendered attributes take the passthrough value `5` rather
than the coordinator value `2`, so the Coordinator-derived value does not
take precedence. -/
theorem c1_counterexample :
    ATTR_BATTERY_QUANTITY ∈
        (coordAttrs
          ⟨some "dev1", 2, "AA", "AA x2", false, 10, none⟩ true).keys ∧
      ATTR_BATTERY_QUANTITY ∈
        (optAttrs (some [(ATTR_BATTERY_QUANTITY, AttrVal.nat 5)])).keys ∧
      (extra_state_attributes
        ⟨⟨some "dev1", 2, "AA", "AA x2", false, 10, none⟩, true, false,
          some "sensor.b", "sensor.x", true, none,
          some [(ATTR_BATTERY_QUANTITY, AttrVal.nat 5)]⟩ none).get?
          ATTR_BATTERY_QUANTITY
        = some (AttrVal.nat 5) ∧
      (coordAttrs ⟨some "dev1", 2, "AA", "AA x2", false, 10, none⟩ true).get?
          ATTR_BATTERY_QUANTITY
        = some (AttrVal.nat 2) := by
  decide

/-- Claim C1 (amended): a BatteryPlusSensor's rendered attributes are the
coordinator-derived dict (`battery_quantity`, `battery_type`,
`battery_type_and_quantity`, `battery_low`, `battery_low_threshold`, and,
when `enable_replaced` is set, `battery_last_replaced`) merged with the
base-class attributes and then the mirrored upstream passthrough
attributes, and on any key collision the passthrough value takes precedence
over the base-class value, which takes precedence over the
coordinator-derived value. -/
theorem c1_attribute_merge (s : BatteryPlusSensor) (super_attrs : Option AttrMap)
    (hw : (optAttrs s.wrapped_attributes).keys.Nodup)
    (hs : (optAttrs super_attrs).keys.Nodup) (k : String) :
    (extra_state_attributes s super_attrs).get? k =
      (((optAttrs s.wrapped_attributes).get? k).orElse
        (fun _ => ((optAttrs super_attrs).get? k).orElse
          (fun _ => (coordAttrs s.coordinator s.enable_replaced).get? k))) := by
  cases hww : s.wrapped_attributes with
  | none =>
      cases hss : super_attrs with
      | none =>
          simp [extra_state_attributes, hww, optAttrs, AttrMap.get?, Option.orElse]
      | some msup =>
          rw [hss] at hs
          simp only [extra_state_attributes, hww, optAttrs]
          rw [AttrMap.get?_update _ _ _ (by simpa [optAttrs] using hs)]
          simp [AttrMap.get?, Option.orElse]
  | some mw =>
      rw [hww] at hw
      cases hss : super_attrs with
      | none =>
          simp only [extra_state_attributes, hww, optAttrs]
          rw [AttrMap.get?_update _ _ _ (by simpa [optAttrs] using hw)]
          simp [AttrMap.get?, Option.orElse]
      | some msup =>
          rw [hss] at hs
          simp only [extra_state_attributes, hww, optAttrs]
          rw [AttrMap.get?_update _ _ _ (by simpa [optAttrs] using hw),
            AttrMap.get?_update _ _ _ (by simpa [optAttrs] using hs)]

/-- Claim C1 witness: the amended precedence at a concrete sensor whose
upstream passthrough attributes collide with the coordinator dict on
`battery_quantity` and add `voltage`. -/
theorem c1_attribute_merge_witness :
    (extra_state_attributes
        ⟨⟨some "dev1", 2, "AA", "AA x2", false, 10, none⟩, true, false,
          some "sensor.b", "sensor.x", true, none,
          some [(ATTR_BATTERY_QUANTITY, AttrVal.nat 5),
            ("voltage", AttrVal.str "3.0")]⟩ none).get? ATTR_BATTERY_QUANTITY
      = some (AttrVal.nat 5) ∧
      (extra_state_attributes
        ⟨⟨some "dev1", 2, "AA", "AA x2", false, 10, none⟩, true, false,
          some "sensor.b", "sensor.x", true, none,
          some [(ATTR_BATTERY_QUANTITY, AttrVal.nat 5),
            ("voltage", AttrVal.str "3.0")]⟩ none).get? ATTR_BATTERY_TYPE
      = some (AttrVal.str "AA") := by
  have h1 := c1_attribute_merge
    ⟨⟨some "dev1", 2, "AA", "AA x2", false, 10, none⟩, true, false,
      some "sensor.b", "sensor.x", true, none,
      some [(ATTR_BATTERY_QUANTITY, AttrVal.nat 5), ("voltage", AttrVal.str "3.0")]⟩
    none (by decide) (by decide) ATTR_BATTERY_QUANTITY
  have h2 := c1_attribute_merge
    ⟨⟨some "dev1", 2, "AA", "AA x2", false, 10, none⟩, true, false,
      some "sensor.b", "sensor.x", true, none,
      some [(ATTR_BATTERY_QUANTITY, AttrVal.nat 5), ("voltage", AttrVal.str "3.0")]⟩
    none (by decide) (by decide) ATTR_BATTERY_TYPE
  rw [h1, h2]
  decide

/-- The effects issued by `async_added_to_hass` when the wrapped battery is
tracked and has a registry entry, in program order. -/
theorem async_added_effects_of_wrapped (registry : EntityRegistry)
    (domain_config : Option DomainConfig) (states : States) (s : BatteryPlusSensor)
    (beid : String) (w : RegistryEntry)
    (hb : s.battery_entity_id = some beid) (hw : registry beid = some w) :
    (async_added_to_hass registry domain_config states s).1
      = [AddEffect.subscribeStateChange beid]
        ++ (if (registry s.entity_id).isSome then
              [AddEffect.updateEntityOptions s.entity_id beid]
            else [])
        ++ (match domain_config with
            | none => []
            | some cfg =>
                if cfg.hide_battery then
                  if ¬ w.hidden then
                    [AddEffect.updateHiddenBy w.entity_id (some Hider.integration)]
                  else []
                else
                  if w.hidden_by = some Hider.integration then
                    [AddEffect.updateHiddenBy w.entity_id none]
                  else [])
        ++ (match w.name with
            | some n => [AddEffect.updateName s.entity_id (n ++ "+")]
            | none => [])
        ++ [AddEffect.registerCoordinatorListener] := by
  simp [async_added_to_hass, hb, hw]

/-- Claim C8: when a BatteryPlusSensor is added and the wrapped battery has
a registry entry, with the domain options configured: `hide_battery` set
and the upstream entry not hidden issues exactly one hide of the upstream
entry; `hide_battery` unset and the upstream entry hidden by this
integration issues exactly one un-hide of it; and every visibility change
issued targets the upstream entry only. -/
theorem c8_hide_battery (registry : EntityRegistry) (cfg : DomainConfig)
    (states : States) (s : BatteryPlusSensor) (beid : String) (w : RegistryEntry)
    (hb : s.battery_entity_id = some beid) (hw : registry beid = some w) :
    (cfg.hide_battery = true → w.hidden_by = none →
        ((async_added_to_hass registry (some cfg) states s).1).filter
            AddEffect.isVisibilityChange
          = [AddEffect.updateHiddenBy w.entity_id (some Hider.integration)]) ∧
      (cfg.hide_battery = false → w.hidden_by = some Hider.integration →
        ((async_added_to_hass registry (some cfg) states s).1).filter
            AddEffect.isVisibilityChange
          = [AddEffect.updateHiddenBy w.entity_id none]) ∧
      (∀ e hb2, AddEffect.updateHiddenBy e hb2
          ∈ (async_added_to_hass registry (some cfg) states s).1 → e = w.entity_id) := by
  rw [async_added_effects_of_wrapped registry (some cfg) states s beid w hb hw]
  refine ⟨?_, ?_, ?_⟩
  · intro hcfg hhid
    have hnothid : w.hidden = false := by simp [RegistryEntry.hidden, hhid]
    cases hreg : (registry s.entity_id).isSome <;> cases hnm : w.name <;>
      simp [hcfg, hhid, hnothid, AddEffect.isVisibilityChange, List.filter_append]
  · intro hcfg hhid
    cases hreg : (registry s.entity_id).isSome <;> cases hnm : w.name <;>
      simp [hcfg, hhid, AddEffect.isVisibilityChange, List.filter_append]
  · intro e hb2 hmem
    simp only [List.mem_append] at hmem
    rcases hmem with ((((hm | hm) | hm) | hm) | hm)
    · simp at hm
    · split at hm <;> simp at hm
    · split at hm <;> split at hm <;> simp at hm <;> exact hm.1
    · cases hnm : w.name <;> simp only [hnm] at hm <;> simp at hm
    · simp at hm

/-- Claim C8 witness: a concrete sensor whose wrapped battery is registered
and not hidden, with `hide_battery` set, issues exactly the hide of the
wrapped battery. -/
theorem c8_hide_battery_witness :
    ((async_added_to_hass
        (fun e => if e = "sensor.b" then
            some ⟨"sensor.b", some "dev1", none, none⟩ else none)
        (some ⟨true⟩) (fun _ => none)
        ⟨⟨some "dev1", 2, "AA", "AA x2", false, 10, none⟩, true, false,
          some "sensor.b", "sensor.x", true, none, none⟩).1).filter
        AddEffect.isVisibilityChange
      = [AddEffect.updateHiddenBy "sensor.b" (some Hider.integration)] := by
  have h := c8_hide_battery
    (fun e => if e = "sensor.b" then
        some ⟨"sensor.b", some "dev1", none, none⟩ else none)
    ⟨true⟩ (fun _ => none)
    ⟨⟨some "dev1", 2, "AA", "AA x2", false, 10, none⟩, true, false,
      some "sensor.b", "sensor.x", true, none, none⟩
    "sensor.b" ⟨"sensor.b", some "dev1", none, none⟩ rfl (by simp)
  exact h.1 rfl rfl

/-- Claim C9: when a BatteryPlusSensor is added and its tracked upstream
battery has no entity-registry entry, the add procedure returns before the
coordinator listener is registered — the only registration site, since the
base-class `async_added_to_hass` is overridden and not called — while the
direct upstream state-change subscription is still installed. -/
theorem c9_no_coordinator_listener (registry : EntityRegistry)
    (domain_config : Option DomainConfig) (states : States) (s : BatteryPlusSensor)
    (beid : String)
    (hb : s.battery_entity_id = some beid) (hw : registry beid = none) :
    AddEffect.registerCoordinatorListener
        ∉ (async_added_to_hass registry domain_config states s).1 ∧
      AddEffect.subscribeStateChange beid
        ∈ (async_added_to_hass registry domain_config states s).1 := by
  have heff : (async_added_to_hass registry domain_config states s).1
      = [AddEffect.subscribeStateChange beid]
        ++ (if (registry s.entity_id).isSome then
              [AddEffect.updateEntityOptions s.entity_id beid]
            else []) := by
    simp [async_added_to_hass, hb, hw]
  rw [heff]
  constructor
  · intro hmem
    rcases List.mem_append.mp hmem with hm | hm
    · simp at hm
    · split at hm <;> simp at hm
  · exact List.mem_append.mpr (Or.inl (by simp))

/-- Claim C9 witness: a concrete sensor tracking `sensor.b` with an empty
entity registry gets no coordinator listener but is subscribed to
`sensor.b`. -/
theorem c9_no_coordinator_listener_witness :
    AddEffect.registerCoordinatorListener
        ∉ (async_added_to_hass (fun _ => none) none (fun _ => none)
          ⟨⟨some "dev1", 2, "AA", "AA x2", false, 10, none⟩, true, false,
            some "sensor.b", "sensor.x", true, none, none⟩).1 ∧
      AddEffect.subscribeStateChange "sensor.b"
        ∈ (async_added_to_hass (fun _ => none) none (fun _ => none)
          ⟨⟨some "dev1", 2, "AA", "AA x2", false, 10, none⟩, true, false,
            some "sensor.b", "sensor.x", true, none, none⟩).1 :=
  c9_no_coordinator_listener (fun _ => none) none (fun _ => none)
    ⟨⟨some "dev1", 2, "AA", "AA x2", false, 10, none⟩, true, false,
      some "sensor.b", "sensor.x", true, none, none⟩ "sensor.b" rfl rfl

end BatteryNotes
